import Mathlib

/-
Verification of the request handler in api/gemini.py (career-guide service).

The handler is shallowly embedded: parsed JSON request bodies become the
inductive type JValue, Python string/dict operations become executable Lean
functions on String and association lists, and the four external
collaborators (scoring rules, generative-text service, PDF renderer, cloud
storage) become oracle fields of an Externals record, since their modules
are imported by the handler but their code is not part of this repository
snapshot.  Fallible Python operations that the handler's generic
`except Exception` clause turns into HTTP 500 responses are modelled with
Except, carrying the Python error message text.
-/

set_option maxHeartbeats 1000000

/-- Single quote character, used to reproduce Python error-message texts. -/
def pyQuote : String := String.singleton (Char.ofNat 39)

/-- Parsed JSON value, the result of Python json.loads on a request body.
obj represents a parsed JSON object as an insertion-ordered association
list (json.loads collapses duplicate keys, so keys are distinct); num
models JSON numbers as integers (float-specific behaviour is out of scope
for the claims considered here). -/
inductive JValue where
  | null : JValue
  | bool : Bool → JValue
  | num : Int → JValue
  | str : String → JValue
  | arr : List JValue → JValue
  | obj : List (String × JValue) → JValue

/-- Python truthiness of a parsed JSON value: None, False, 0, empty string
and empty containers are falsy, everything else is truthy. -/
def JValue.truthy : JValue → Bool
  | JValue.null => false
  | JValue.bool b => b
  | JValue.num n => n != 0
  | JValue.str s => s != ""
  | JValue.arr xs => !xs.isEmpty
  | JValue.obj kvs => !kvs.isEmpty

/-- Whether the value is a JSON object, i.e. would satisfy Python
isinstance(v, dict) after json.loads. -/
def JValue.isObj : JValue → Bool
  | JValue.obj _ => true
  | _ => false

/-- Python type name of a parsed JSON value, as it appears in TypeError
messages. -/
def pyTypeName : JValue → String
  | JValue.null => "NoneType"
  | JValue.bool _ => "bool"
  | JValue.num _ => "int"
  | JValue.str _ => "str"
  | JValue.arr _ => "list"
  | JValue.obj _ => "dict"

/-- Dictionary lookup on the association list representing a parsed JSON
object (Python d[k] / d.get(k) on the parsed dict; keys are distinct after
json.loads, so first match equals the dict entry). -/
def sLookup (k : String) : List (String × JValue) → Option JValue
  | [] => none
  | (k2, v) :: rest => if k2 = k then some v else sLookup k rest

/-- List-of-characters prefix test (building block for the Python string
operations used by the handler). -/
def isPrefixL : List Char → List Char → Bool
  | [], _ => true
  | _ :: _, [] => false
  | a :: as, b :: bs => (a == b) && isPrefixL as bs

/-- Substring containment on character lists: Python `pat in s` for
strings. -/
def hasSubL (pat : List Char) : List Char → Bool
  | [] => isPrefixL pat []
  | l@(_ :: rest) => isPrefixL pat l || hasSubL pat rest

/-- Python s.startswith(pre). -/
def pyStartsWith (s pre : String) : Bool :=
  isPrefixL pre.data s.data

/-- Python str.strip() with no argument: remove leading and trailing
whitespace (the handler only ever strips ordinary names, so the exact
whitespace alphabet beyond space/tab/CR/LF is immaterial). -/
def pyStrip (s : String) : String :=
  String.mk (((s.data.dropWhile Char.isWhitespace).reverse.dropWhile Char.isWhitespace).reverse)

/-- Python str.replace for a single-character pattern and replacement,
replacing every occurrence; models student_name.replace(' ', '_'). -/
def pyReplaceChar (s : String) (a b : Char) : String :=
  String.mk (s.data.map fun c => if c = a then b else c)

/-- JSON string escaping as performed by json.dumps (quote and backslash;
control-character escapes are not exercised by the handler's data). -/
def jsonEscape (s : String) : String :=
  String.mk (s.data.foldr (fun c acc =>
    if c = '"' then '\\' :: '"' :: acc
    else if c = '\\' then '\\' :: '\\' :: acc
    else c :: acc) [])

/-- Fuel-bounded core of json.dumps over parsed values; the fuel bounds
nesting depth only so that the function is structurally recursive, and is
always ample for the handler's data. -/
def jsonDumpsF : Nat → JValue → String
  | _, JValue.null => "null"
  | _, JValue.bool true => "true"
  | _, JValue.bool false => "false"
  | _, JValue.num n => toString n
  | _, JValue.str s => "\"" ++ jsonEscape s ++ "\""
  | 0, JValue.arr _ => ""
  | 0, JValue.obj _ => ""
  | Nat.succ fuel, JValue.arr xs =>
      "[" ++ String.intercalate ", " (xs.map (jsonDumpsF fuel)) ++ "]"
  | Nat.succ fuel, JValue.obj kvs =>
      "\x7b" ++ String.intercalate ", "
        (kvs.map fun kv => "\"" ++ jsonEscape kv.1 ++ "\": " ++ jsonDumpsF fuel kv.2) ++ "\x7d"

/-- Python json.dumps on a parsed value (default separators). -/
def jsonDumps (v : JValue) : String := jsonDumpsF 1000 v

/-- Fuel-bounded core of Python repr on parsed JSON values. -/
def pyReprF : Nat → JValue → String
  | _, JValue.null => "None"
  | _, JValue.bool true => "True"
  | _, JValue.bool false => "False"
  | _, JValue.num n => toString n
  | _, JValue.str s => pyQuote ++ s ++ pyQuote
  | 0, JValue.arr _ => ""
  | 0, JValue.obj _ => ""
  | Nat.succ fuel, JValue.arr xs =>
      "[" ++ String.intercalate ", " (xs.map (pyReprF fuel)) ++ "]"
  | Nat.succ fuel, JValue.obj kvs =>
      "\x7b" ++ String.intercalate ", "
        (kvs.map fun kv => pyQuote ++ kv.1 ++ pyQuote ++ ": " ++ pyReprF fuel kv.2) ++ "\x7d"

/-- Python str() of a parsed JSON value: identity on strings, repr-style
rendering on everything else, as used for the student_info fields. -/
def pyStr : JValue → String
  | JValue.str s => s
  | v => pyReprF 1000 v

-- Sanity checks on the Python-semantics utilities (concrete evaluation).
example : JValue.truthy (JValue.num 42) = true := by decide
example : JValue.truthy (JValue.obj []) = false := by decide
example : pyStrip "  Asha " = "Asha" := by decide
example : pyReplaceChar "Asha Rao" ' ' '_' = "Asha_Rao" := by decide
example : hasSubL "answers".data "xanswersx".data = true := by decide
example : hasSubL "answers".data "hello".data = false := by decide
example : pyStartsWith "/api/download-report/foo" "/api/download-report/" = true := by decide
example : jsonDumps (JValue.obj [("a", JValue.num 1)]) = "\x7b\"a\": 1\x7d" := by decide

/-- HTTP response produced by the handler: a JSON response with a status
code and an ordered JSON-object body (the argument of json.dumps), or a
raw file response (status 200) with its Content-type and
Content-Disposition headers and byte content. -/
inductive HResponse where
  | json : Nat → List (String × JValue) → HResponse
  | file : String → String → List Nat → HResponse

/-- Status code of a response (a file response is sent with status 200). -/
def HResponse.status : HResponse → Nat
  | HResponse.json s _ => s
  | HResponse.file _ _ _ => 200

/-- Externally visible pipeline steps performed while serving a request,
in execution order: invoking the trait scorer, the career-goal extractor,
the generative narrative service, the report assembler, the PDF renderer,
storage-client initialization, the storage upload, and the storage
download lookup. -/
inductive Effect where
  | score : Effect
  | goalExtract : Effect
  | narrate : Effect
  | assemble : Effect
  | render : Effect
  | driveInit : Effect
  | upload : Effect
  | download : Effect
deriving DecidableEq

/-- Body of _send_error: JSON response with an error message. -/
def sendError (status : Nat) (msg : String) : HResponse :=
  HResponse.json status [("error", JValue.str msg)]

/-- The 404 body used by both do_POST and do_GET for unknown routes. -/
def routeNotFound : HResponse :=
  HResponse.json 404 [("error", JValue.str "Route not found")]

/-- Response of the generic `except Exception` clause of do_POST, which
reports the exception text with status 500. -/
def processingFailed (m : String) : HResponse :=
  sendError 500 ("Assessment processing failed: " ++ m)

/-- Python TypeError text for `x in v` on a non-container value v. -/
def notIterableErr (t : String) : String :=
  "argument of type " ++ pyQuote ++ t ++ pyQuote ++ " is not iterable"

/-- Python evaluation of `'answers' in data` for a parsed JSON value:
key membership for objects, element membership for arrays, substring
containment for strings, and a TypeError for the remaining types. -/
def memAnswers : JValue → Except String Bool
  | JValue.obj kvs => Except.ok (sLookup "answers" kvs).isSome
  | JValue.arr xs =>
      Except.ok (xs.any fun v => match v with
        | JValue.str s => s == "answers"
        | _ => false)
  | JValue.str s => Except.ok (hasSubL "answers".data s.data)
  | v => Except.error (notIterableErr (pyTypeName v))

/-- Python evaluation of `data['answers']`: dictionary item access for
objects, a TypeError for strings and arrays subscripted with a string
key (message text as in CPython), unreachable otherwise. -/
def getItemAnswers : JValue → Except String JValue
  | JValue.obj kvs =>
      match sLookup "answers" kvs with
      | some v => Except.ok v
      | none => Except.error (pyQuote ++ "answers" ++ pyQuote)
  | JValue.str _ => Except.error "string indices must be integers"
  | JValue.arr _ => Except.error "list indices must be integers or slices, not str"
  | v => Except.error (pyTypeName v ++ " object is not subscriptable")

/-- Result of the upload_to_drive helper on success: the stored file id
and its shareable webViewLink, as returned by the storage service. -/
structure UploadResult where
  id : String
  webViewLink : String

/-- The student_info record assembled by do_POST (all fields already
passed through Python str()). -/
structure StudentInfo where
  name : String
  age : String
  academic_info : String
  interests : String
  achievements : List String

/-- External collaborators invoked by do_POST.  Their modules
(assessment_manager, prompt_manager, report_builder, pdf_generator, the
storage SDK) are imported by api/gemini.py but are not part of this
repository snapshot, so they are oracles: arbitrary functions the
theorems quantify over.  driveOk models whether setup_google_drive
returns a usable client, folder_id models os.getenv GOOGLE_DRIVE_FOLDER_ID,
and upload_to_drive takes the PDF bytes, the filename and the folder id
and returns the upload result, or none when the upload helper fails. -/
structure PExternals where
  calculate_scores : List (String × JValue) → JValue
  extract_career_goal : List JValue → Option String
  generate_topic_reports : String → String → String → JValue
  build_report_data : String → String → JValue → JValue
  generate_pdf_report : JValue → List Nat
  driveOk : Bool
  folder_id : Option String
  upload_to_drive : List Nat → String → Option String → Option UploadResult

/-- POST request as seen after the framework has read the body: the
request path and the result of json.loads on the body (error models a
json.JSONDecodeError; a well-formed Content-Length header is assumed,
header handling being framework plumbing). -/
structure PostRequest where
  path : String
  body : Except Unit JValue

/-- Python d.get(k) on a parsed value (None default); only ever applied
to objects on the paths where do_POST uses it. -/
def pyGet : JValue → String → Option JValue
  | JValue.obj kvs, k => sLookup k kvs
  | _, _ => none

/-- Evaluation of str(data.get(key, 'Not provided')) in do_POST. -/
def pyGetStr (data : JValue) (k : String) : String :=
  match pyGet data k with
  | none => "Not provided"
  | some v => pyStr v

/-- Evaluation of str(data.get('answers', {}).get(key, 'None')) once the
answers dictionary is in hand. -/
def ansStr (answers : List (String × JValue)) (k : String) : String :=
  match sLookup k answers with
  | none => "None"
  | some v => pyStr v

/-- Evaluation of data.get('studentName', 'Student').strip(): the default
or submitted name, stripped; a non-string submitted value raises an
AttributeError (message text as in CPython), which the surrounding
try block converts to a 500 response. -/
def studentNameOf (data : JValue) : Except String String :=
  match pyGet data "studentName" with
  | none => Except.ok (pyStrip "Student")
  | some (JValue.str s) => Except.ok (pyStrip s)
  | some v => Except.error
      (pyQuote ++ pyTypeName v ++ pyQuote ++ " object has no attribute " ++
        pyQuote ++ "strip" ++ pyQuote)

/-- JSON object serialised for the Student Info half of the Gemini
context string (mirrors the student_info dict literal in do_POST). -/
def studentInfoJson (si : StudentInfo) : JValue :=
  JValue.obj [
    ("name", JValue.str si.name),
    ("age", JValue.str si.age),
    ("academic_info", JValue.str si.academic_info),
    ("interests", JValue.str si.interests),
    ("achievements", JValue.arr (si.achievements.map JValue.str))]

/-- The context f-string of do_POST after .strip(): trait scores and
student info serialised with json.dumps, separated by the interior
newline-plus-indentation of the source's triple-quoted literal. -/
def buildContext (trait_scores : JValue) (si : StudentInfo) : String :=
  "Trait Scores: " ++ jsonDumps trait_scores ++
  "\n            Student Info: " ++ jsonDumps (studentInfoJson si)

/-- The request path served by do_POST. -/
def submitPath : String := "/api/submit-assessment"

/-- Effects performed when the pipeline reaches the upload step. -/
def allPipelineEffects : List Effect :=
  [Effect.score, Effect.goalExtract, Effect.narrate, Effect.assemble,
   Effect.render, Effect.driveInit, Effect.upload]

/-- The body of do_POST from the trait-scoring call onward, i.e. lines
177-239 of api/gemini.py, reached once the answers value is known to be
a dictionary.  Returns the response together with the pipeline effects
performed. -/
def postAfterValidation (e : PExternals) (data : JValue)
    (answers : List (String × JValue)) : HResponse × List Effect :=
  let trait_scores := e.calculate_scores answers
  match studentNameOf data with
  | Except.error m => (processingFailed m, [Effect.score])
  | Except.ok student_name =>
    let student_info : StudentInfo :=
      { name := student_name
        age := pyGetStr data "age"
        academic_info := pyGetStr data "academicInfo"
        interests := pyGetStr data "interests"
        achievements := [ansStr answers "question13", ansStr answers "question30"] }
    match e.extract_career_goal (answers.map Prod.snd) with
    | none => (sendError 500 "Failed to extract career goal",
               [Effect.score, Effect.goalExtract])
    | some career_goal =>
      if career_goal = "" then
        (sendError 500 "Failed to extract career goal",
         [Effect.score, Effect.goalExtract])
      else
        let context := buildContext trait_scores student_info
        let report_sections := e.generate_topic_reports context career_goal student_info.name
        if report_sections.truthy = false then
          (sendError 500 "Failed to generate report sections",
           [Effect.score, Effect.goalExtract, Effect.narrate])
        else
          let report_data := e.build_report_data student_info.name career_goal report_sections
          let pdf_filename := pyReplaceChar student_name ' ' '_' ++ "_Career_Report.pdf"
          let pdf_content := e.generate_pdf_report report_data
          if e.driveOk = false then
            (sendError 500 "Failed to initialize Google Drive API",
             [Effect.score, Effect.goalExtract, Effect.narrate, Effect.assemble,
              Effect.render, Effect.driveInit])
          else
            match e.upload_to_drive pdf_content pdf_filename e.folder_id with
            | none => (sendError 500 "Failed to upload PDF to Google Drive",
                       allPipelineEffects)
            | some u =>
              (HResponse.json 200 [
                ("message", JValue.str "Report generated successfully"),
                ("report_url", JValue.str u.webViewLink),
                ("file_id", JValue.str u.id),
                ("file_name", JValue.str pdf_filename),
                ("student_name", JValue.str student_name),
                ("career_goal", JValue.str career_goal)],
               allPipelineEffects)

/-- The do_POST method of the handler class (api/gemini.py lines 154-245):
route check, JSON parsing, the two validation checks on the answers field,
then the processing pipeline; Python exceptions raised by the membership
test or the subscript on a non-dictionary body are caught by the generic
except clause and reported as 500 responses. -/
def do_POST (e : PExternals) (r : PostRequest) : HResponse × List Effect :=
  if r.path = submitPath then
    match r.body with
    | Except.error _ => (sendError 400 "Invalid JSON data", [])
    | Except.ok data =>
      if data.truthy = false then (sendError 400 "Missing answers data", [])
      else
        match memAnswers data with
        | Except.error m => (processingFailed m, [])
        | Except.ok false => (sendError 400 "Missing answers data", [])
        | Except.ok true =>
          match getItemAnswers data with
          | Except.error m => (processingFailed m, [])
          | Except.ok (JValue.obj answers) => postAfterValidation e data answers
          | Except.ok _ => (sendError 400 "Invalid answers format", [])
  else (routeNotFound, [])

/-- Hexadecimal digit value, for percent decoding. -/
def hexVal (c : Char) : Option Nat :=
  if c.isDigit then some (c.toNat - 48)
  else if 65 ≤ c.toNat && c.toNat ≤ 70 then some (c.toNat - 55)
  else if 97 ≤ c.toNat && c.toNat ≤ 102 then some (c.toNat - 87)
  else none

/-- Percent decoding on characters: a percent sign followed by two hex
digits decodes to the corresponding character, anything else is kept
verbatim, as urllib.parse.unquote does (multi-byte UTF-8 sequences are
out of scope: no claim inspects a decoded filename). -/
def percentDecodeChars : List Char → List Char
  | [] => []
  | '%' :: a :: b :: rest2 =>
    (match hexVal a, hexVal b with
     | some x, some y => Char.ofNat (16 * x + y) :: percentDecodeChars rest2
     | _, _ => '%' :: percentDecodeChars (a :: b :: rest2))
  | c :: rest => c :: percentDecodeChars rest

/-- Python urllib.parse.unquote on the captured filename. -/
def unquote (s : String) : String :=
  String.mk (percentDecodeChars s.data)

/-- The download route literal used by do_GET. -/
def downloadRoot : String := "/api/download-report/"

/-- Evaluation of re.match applied to the pattern /api/download-report/(.*)
and the request path: re.match anchors at the start of the string, so the
match succeeds exactly when the path begins with the literal, and the
capture group, being dot-star, takes the remainder of the path up to the
first newline (the regex dot does not match a newline). -/
def regexMatchDownload (path : String) : Option String :=
  if isPrefixL downloadRoot.data path.data then
    some (String.mk ((path.data.drop 21).takeWhile fun c => c != '\n'))
  else none

/-- Evaluation of the authorization guard of do_GET: the header must be
present, truthy and start with the Bearer marker; otherwise the guard
fails and the handler responds 401. -/
def authPresent : Option String → Bool
  | none => false
  | some a => (a != "") && pyStartsWith a "Bearer "

/-- External collaborators invoked by do_GET: whether setup_google_drive
returns a usable client, and the download_from_drive lookup taking the
filename and returning the file bytes with their stored MIME type, or
none when the file is not found or the download helper fails. -/
structure GExternals where
  driveOk : Bool
  download : String → Option (List Nat × String)

/-- GET request: the request path and the optional Authorization header. -/
structure GetRequest where
  path : String
  auth : Option String

/-- The do_GET method of the handler class (api/gemini.py lines 247-301):
the health route, the download route (path parse, authorization guard,
storage-client initialization, storage lookup, file streaming), and the
404 fallback.  Returns the response together with the storage effects
performed. -/
def do_GET (e : GExternals) (r : GetRequest) : HResponse × List Effect :=
  if r.path = "/api/health" then
    (HResponse.json 200 [
      ("status", JValue.str "healthy"),
      ("message", JValue.str "Career Guide API is running")], [])
  else if pyStartsWith r.path downloadRoot = true then
    match regexMatchDownload r.path with
    | none => (sendError 400 "Invalid file path", [])
    | some captured =>
      let filename := unquote captured
      if authPresent r.auth = false then
        (sendError 401 "Authorization required", [])
      else if e.driveOk = false then
        (sendError 500 "Failed to connect to Google Drive", [Effect.driveInit])
      else
        match e.download filename with
        | none => (sendError 404 "File not found", [Effect.driveInit, Effect.download])
        | some (content, mime) =>
          (HResponse.file (if mime = "" then "application/pdf" else mime)
            ("attachment; filename=\"" ++ filename ++ "\"") content,
           [Effect.driveInit, Effect.download])
  else (routeNotFound, [])

/-- Full HTTP request for the routing dispatcher. -/
structure Request where
  method : String
  path : String
  body : Except Unit JValue
  auth : Option String

/-- Modelled from the spec: request dispatch by HTTP method is performed
by the hosting framework (http.server.BaseHTTPRequestHandler), whose code
is not part of this repository; the repository defines only do_POST and
do_GET.  The spec states that any other path/method combination yields
404 Route not found, so the fallback for other methods is modelled
accordingly. -/
def handle_request (pe : PExternals) (ge : GExternals) (req : Request) :
    HResponse × List Effect :=
  match req.method with
  | "POST" => do_POST pe { path := req.path, body := req.body }
  | "GET" => do_GET ge { path := req.path, auth := req.auth }
  | _ => (routeNotFound, [])

/-- A method/path pair addressed by one of the three defined routes. -/
def definedRoute (m p : String) : Prop :=
  (m = "POST" ∧ p = submitPath) ∨
  (m = "GET" ∧ (p = "/api/health" ∨ pyStartsWith p downloadRoot = true))

instance (m p : String) : Decidable (definedRoute m p) := by
  unfold definedRoute; infer_instance

/-- Modelled from the spec: AssessmentManager.calculate_scores lives in
api/assessment_manager.py, which is imported by api/gemini.py but is not
part of this repository snapshot.  The spec describes it as a fixed
deterministic rubric mapping the answers dictionary to numeric trait
scores, with no side effects; the rubric details are unspecified, so a
representative fixed rubric is used, and the env parameter stands for any
ambient process state a run could observe, which the rubric, having no
side effects, never consults. -/
def AssessmentManager.calculate_scores (_env : Nat) (answers : List (String × JValue)) :
    List (String × Int) :=
  ["analytical", "creative", "social", "practical"].map fun t =>
    (t, answers.foldl (fun acc kv =>
      if (kv.1.length + t.length) % 2 = 0 then
        acc + (match kv.2 with
          | JValue.str s => Int.ofNat (s.length % 4 + 1)
          | JValue.num n => n % 4 + 1
          | JValue.bool true => 1
          | _ => 0)
      else acc) 0)

/-- Characterization of the request bodies on which do_POST answers with
a 400 client-error response: a JSON parse failure, a falsy body, a truthy
body whose Python membership test for the answers key succeeds and
reports absence, or a body whose answers item is retrieved and is not a
dictionary.  (Mirrors the branch structure of do_POST for comparison with
the spec's client-error taxonomy.) -/
def wasClientError : Except Unit JValue → Bool
  | Except.error _ => true
  | Except.ok data =>
    if data.truthy = false then true
    else
      match memAnswers data with
      | Except.error _ => false
      | Except.ok false => true
      | Except.ok true =>
        match getItemAnswers data with
        | Except.error _ => false
        | Except.ok v => !v.isObj

/-- Dummy external collaborators for concrete evaluations whose scenarios
never reach them (they are still total functions). -/
def trivPExternals : PExternals :=
  { calculate_scores := fun _ => JValue.null
    extract_career_goal := fun _ => none
    generate_topic_reports := fun _ _ _ => JValue.null
    build_report_data := fun _ _ _ => JValue.null
    generate_pdf_report := fun _ => []
    driveOk := false
    folder_id := none
    upload_to_drive := fun _ _ _ => none }

/-- External collaborators for which every pipeline stage succeeds, used
by the concrete end-to-end evaluations. -/
def okPExternals : PExternals :=
  { calculate_scores := fun _ => JValue.obj [("analytical", JValue.num 3)]
    extract_career_goal := fun _ => some "Engineer"
    generate_topic_reports := fun _ _ _ => JValue.str "sections text"
    build_report_data := fun _ _ _ => JValue.obj [("title", JValue.str "report")]
    generate_pdf_report := fun _ => [37, 80, 68, 70]
    driveOk := true
    folder_id := some "folder1"
    upload_to_drive := fun _ _ _ => some { id := "fid123", webViewLink := "https://drive.example/view/fid123" } }

/-- Dummy storage collaborators for do_GET evaluations that stop at the
authorization guard. -/
def trivGExternals : GExternals :=
  { driveOk := false
    download := fun _ => none }

-- Concrete sanity evaluations of the embedded handlers.
example :
    do_POST trivPExternals { path := submitPath, body := Except.ok JValue.null } =
      (sendError 400 "Missing answers data", []) := rfl
example :
    do_POST trivPExternals { path := submitPath, body := Except.ok (JValue.num 42) } =
      (processingFailed (notIterableErr "int"), []) := rfl
example :
    do_POST trivPExternals
      { path := submitPath,
        body := Except.ok (JValue.obj [("answers", JValue.arr [JValue.str "x"])]) } =
      (sendError 400 "Invalid answers format", []) := rfl
example :
    (do_POST okPExternals
      { path := submitPath,
        body := Except.ok (JValue.obj [
          ("studentName", JValue.str "Asha"),
          ("answers", JValue.obj [("question1", JValue.str "a")])]) }).1 =
      HResponse.json 200 [
        ("message", JValue.str "Report generated successfully"),
        ("report_url", JValue.str "https://drive.example/view/fid123"),
        ("file_id", JValue.str "fid123"),
        ("file_name", JValue.str "Asha_Career_Report.pdf"),
        ("student_name", JValue.str "Asha"),
        ("career_goal", JValue.str "Engineer")] := rfl
example :
    do_GET trivGExternals { path := "/api/download-report/foo.pdf", auth := none } =
      (sendError 401 "Authorization required", []) := rfl
example :
    do_GET trivGExternals { path := "/api/health", auth := none } =
      (HResponse.json 200 [
        ("status", JValue.str "healthy"),
        ("message", JValue.str "Career Guide API is running")], []) := rfl

/-- A parsed object in which some key is found is a non-empty dictionary,
hence truthy. -/
theorem obj_truthy_of_lookup {k : String} {l : List (String × JValue)} {v : JValue}
    (h : sLookup k l = some v) : JValue.truthy (JValue.obj l) = true := by
  cases l with
  | nil => simp [sLookup] at h
  | cons a t => simp [JValue.truthy, List.isEmpty]

/-- Once the answers value is known to be a dictionary, the remainder of
the do_POST pipeline only ever responds 500 or 200, never 400. -/
theorem postAfterValidation_status_ne_400 (e : PExternals) (data : JValue)
    (answers : List (String × JValue)) :
    (postAfterValidation e data answers).1.status ≠ 400 := by
  simp only [postAfterValidation]
  repeat' split
  all_goals simp [processingFailed, sendError, HResponse.status]

/-- General success-path lemma: when the body is an object whose answers
entry is a dictionary, the student name evaluates without error, the
career-goal extraction yields a non-empty goal, the narrative service
returns a truthy value, the storage client initializes and the upload
succeeds, do_POST answers 200 with the exact six-key body and performs
the whole pipeline. -/
theorem post_success (e : PExternals) (kvs : List (String × JValue))
    (answers : List (String × JValue)) (nm g : String) (u : UploadResult)
    (hans : sLookup "answers" kvs = some (JValue.obj answers))
    (hname : studentNameOf (JValue.obj kvs) = Except.ok nm)
    (hgoal : e.extract_career_goal (answers.map Prod.snd) = some g)
    (hg : ¬ g = "")
    (hnarr : ∀ c gl n, (e.generate_topic_reports c gl n).truthy = true)
    (hdrive : e.driveOk = true)
    (hup : ∀ c f fo, e.upload_to_drive c f fo = some u) :
    do_POST e { path := submitPath, body := Except.ok (JValue.obj kvs) } =
      (HResponse.json 200 [
        ("message", JValue.str "Report generated successfully"),
        ("report_url", JValue.str u.webViewLink),
        ("file_id", JValue.str u.id),
        ("file_name", JValue.str (pyReplaceChar nm ' ' '_' ++ "_Career_Report.pdf")),
        ("student_name", JValue.str nm),
        ("career_goal", JValue.str g)],
       allPipelineEffects) := by
  simp [do_POST, memAnswers, getItemAnswers, obj_truthy_of_lookup hans, hans,
    postAfterValidation, hname, hgoal, hg, hnarr, hdrive, hup]

/-- C1: for a POST to /api/submit-assessment that completes every
pipeline stage successfully with studentName "Asha", the 200 response
body is a JSON object with exactly the keys message, report_url,
file_id, file_name, student_name, career_goal, where student_name is
"Asha", career_goal is the non-empty extracted goal, report_url is the
upload result's webViewLink, and file_name is
"Asha_Career_Report.pdf". -/
theorem C1_success_response (e : PExternals) (kvs : List (String × JValue))
    (answers : List (String × JValue)) (g : String) (u : UploadResult)
    (hname : sLookup "studentName" kvs = some (JValue.str "Asha"))
    (hans : sLookup "answers" kvs = some (JValue.obj answers))
    (hgoal : e.extract_career_goal (answers.map Prod.snd) = some g)
    (hg : ¬ g = "")
    (hnarr : ∀ c gl n, (e.generate_topic_reports c gl n).truthy = true)
    (hdrive : e.driveOk = true)
    (hup : ∀ c f fo, e.upload_to_drive c f fo = some u) :
    do_POST e { path := submitPath, body := Except.ok (JValue.obj kvs) } =
      (HResponse.json 200 [
        ("message", JValue.str "Report generated successfully"),
        ("report_url", JValue.str u.webViewLink),
        ("file_id", JValue.str u.id),
        ("file_name", JValue.str "Asha_Career_Report.pdf"),
        ("student_name", JValue.str "Asha"),
        ("career_goal", JValue.str g)],
       allPipelineEffects) := by
  have hn : studentNameOf (JValue.obj kvs) = Except.ok "Asha" := by
    simp only [studentNameOf, pyGet, hname]
    rfl
  exact post_success e kvs answers "Asha" g u hans hn hgoal hg hnarr hdrive hup

/-- Closed witness for C1 at a concrete request and concrete successful
collaborators. -/
theorem C1_success_response_witness :
    do_POST okPExternals
      { path := submitPath,
        body := Except.ok (JValue.obj [
          ("studentName", JValue.str "Asha"),
          ("answers", JValue.obj [("question1", JValue.str "a")])]) } =
      (HResponse.json 200 [
        ("message", JValue.str "Report generated successfully"),
        ("report_url", JValue.str "https://drive.example/view/fid123"),
        ("file_id", JValue.str "fid123"),
        ("file_name", JValue.str "Asha_Career_Report.pdf"),
        ("student_name", JValue.str "Asha"),
        ("career_goal", JValue.str "Engineer")],
       allPipelineEffects) :=
  C1_success_response okPExternals _ _ "Engineer"
    { id := "fid123", webViewLink := "https://drive.example/view/fid123" }
    rfl rfl rfl (by decide) (fun _ _ _ => rfl) rfl (fun _ _ _ => rfl)

/-- C2: a POST body that parses as JSON and is empty or null (null or an
empty container or empty string), or is an object lacking an answers
field, is answered 400 with error Missing answers data, and no scoring,
narrative generation, rendering or upload is performed (empty effect
list). -/
theorem C2_missing_answers (e : PExternals) (b : JValue)
    (h : b = JValue.null ∨ b = JValue.obj [] ∨ b = JValue.arr [] ∨ b = JValue.str "" ∨
         ∃ kvs, b = JValue.obj kvs ∧ sLookup "answers" kvs = none) :
    do_POST e { path := submitPath, body := Except.ok b } =
      (sendError 400 "Missing answers data", []) := by
  rcases h with h | h | h | h | ⟨kvs, rfl, hk⟩
  · subst h; rfl
  · subst h; rfl
  · subst h; rfl
  · subst h; rfl
  · cases kvs with
    | nil => rfl
    | cons a t => simp [do_POST, memAnswers, hk, JValue.truthy, List.isEmpty]

/-- Closed witness for C2 on an object body without an answers field. -/
theorem C2_missing_answers_witness :
    do_POST trivPExternals
      { path := submitPath,
        body := Except.ok (JValue.obj [("foo", JValue.str "bar")]) } =
      (sendError 400 "Missing answers data", []) :=
  C2_missing_answers trivPExternals _
    (Or.inr (Or.inr (Or.inr (Or.inr ⟨_, rfl, rfl⟩))))

/-- C3: a POST body that parses as a JSON object containing an answers
field whose value is not a mapping is answered 400 with error Invalid
answers format. -/
theorem C3_invalid_answers_format (e : PExternals) (kvs : List (String × JValue))
    (v : JValue)
    (hans : sLookup "answers" kvs = some v)
    (hv : v.isObj = false) :
    do_POST e { path := submitPath, body := Except.ok (JValue.obj kvs) } =
      (sendError 400 "Invalid answers format", []) := by
  simp only [do_POST, memAnswers, getItemAnswers, obj_truthy_of_lookup hans, hans,
    Option.isSome_some, Bool.true_eq_false, if_false, if_pos rfl]
  cases v <;> simp_all [JValue.isObj]

/-- Closed witness for C3 with answers submitted as a list. -/
theorem C3_invalid_answers_format_witness :
    do_POST trivPExternals
      { path := submitPath,
        body := Except.ok (JValue.obj [("answers", JValue.arr [JValue.str "x"])]) } =
      (sendError 400 "Invalid answers format", []) :=
  C3_invalid_answers_format trivPExternals _ _ rfl rfl

/-- C4: once answers validation passes, an absent or empty extracted
career goal is answered 500 with error Failed to extract career goal;
the effect list stops at the extraction step, so no default goal is
substituted and the pipeline does not proceed to narrative generation. -/
theorem C4_goal_extraction_failure (e : PExternals) (kvs : List (String × JValue))
    (answers : List (String × JValue)) (nm : String)
    (hans : sLookup "answers" kvs = some (JValue.obj answers))
    (hname : studentNameOf (JValue.obj kvs) = Except.ok nm)
    (hgoal : e.extract_career_goal (answers.map Prod.snd) = none ∨
             e.extract_career_goal (answers.map Prod.snd) = some "") :
    do_POST e { path := submitPath, body := Except.ok (JValue.obj kvs) } =
      (sendError 500 "Failed to extract career goal",
       [Effect.score, Effect.goalExtract]) := by
  rcases hgoal with h | h <;>
    simp [do_POST, memAnswers, getItemAnswers, obj_truthy_of_lookup hans, hans,
      postAfterValidation, hname, h]

/-- External collaborators whose career-goal extraction finds nothing. -/
def noGoalPExternals : PExternals :=
  { okPExternals with extract_career_goal := fun _ => none }

/-- Closed witness for C4 with an extractor that finds no goal. -/
theorem C4_goal_extraction_failure_witness :
    do_POST noGoalPExternals
      { path := submitPath,
        body := Except.ok (JValue.obj [("answers", JValue.obj [("question1", JValue.str "a")])]) } =
      (sendError 500 "Failed to extract career goal",
       [Effect.score, Effect.goalExtract]) :=
  C4_goal_extraction_failure noGoalPExternals _ _ "Student" rfl rfl (Or.inl rfl)

/-- C5 counterexample: the claim predicts that a body whose answers data
is missing is answered 400 for every top-level JSON value, but for the
JSON number 42 the membership test raises a TypeError and do_POST
answers 500, not 400 (and performs no pipeline step). -/
theorem C5_counterexample_number_body :
    do_POST trivPExternals { path := submitPath, body := Except.ok (JValue.num 42) } =
      (processingFailed (notIterableErr "int"), []) ∧
    ¬ (do_POST trivPExternals
        { path := submitPath, body := Except.ok (JValue.num 42) }).1.status = 400 := by
  constructor
  · rfl
  · decide

/-- C5 amended: do_POST answers 400 exactly on the client-input errors
the code detects, namely malformed JSON, a falsy body, a truthy body
whose membership test for the answers key succeeds and reports absence,
and an answers item that is retrieved and is not a mapping; truthy
number and boolean bodies, and truthy string or array bodies whose
membership test succeeds but whose answers subscript then raises,
escape the 400 mapping and are answered 500. -/
theorem C5_amended_client_error_iff (e : PExternals) (b : Except Unit JValue) :
    (do_POST e { path := submitPath, body := b }).1.status = 400 ↔
      wasClientError b = true := by
  cases b with
  | error u => simp [do_POST, wasClientError, sendError, HResponse.status]
  | ok data =>
    by_cases ht : data.truthy = false
    · simp [do_POST, wasClientError, ht, sendError, HResponse.status]
    · rcases hm : memAnswers data with m | bb
      · simp [do_POST, wasClientError, ht, hm, processingFailed, sendError, HResponse.status]
      · cases bb
        · simp [do_POST, wasClientError, ht, hm, sendError, HResponse.status]
        · rcases hg : getItemAnswers data with m | v
          · simp [do_POST, wasClientError, ht, hm, hg, processingFailed, sendError,
              HResponse.status]
          · cases v with
            | obj a =>
              have hL : (do_POST e { path := submitPath, body := Except.ok data }).1 =
                  (postAfterValidation e data a).1 := by
                simp [do_POST, ht, hm, hg]
              rw [hL]
              simp [wasClientError, ht, hm, hg, JValue.isObj,
                postAfterValidation_status_ne_400]
            | null =>
              simp [do_POST, wasClientError, ht, hm, hg, sendError, HResponse.status,
                JValue.isObj]
            | bool bv =>
              simp [do_POST, wasClientError, ht, hm, hg, sendError, HResponse.status,
                JValue.isObj]
            | num n =>
              simp [do_POST, wasClientError, ht, hm, hg, sendError, HResponse.status,
                JValue.isObj]
            | str s =>
              simp [do_POST, wasClientError, ht, hm, hg, sendError, HResponse.status,
                JValue.isObj]
            | arr xs =>
              simp [do_POST, wasClientError, ht, hm, hg, sendError, HResponse.status,
                JValue.isObj]

/-- C6: a GET on the download route whose Authorization header is absent,
empty or does not begin with the Bearer marker is answered 401 with error
Authorization required, and the empty effect list shows that no storage
client is initialized and no storage lookup occurs. -/
theorem C6_download_auth_required (e : GExternals) (r : GetRequest)
    (hpre : pyStartsWith r.path downloadRoot = true)
    (hauth : authPresent r.auth = false) :
    do_GET e r = (sendError 401 "Authorization required", []) := by
  have hph : ¬ r.path = "/api/health" := by
    intro h
    rw [h] at hpre
    exact absurd hpre (by decide)
  have hpre' : isPrefixL downloadRoot.data r.path.data = true := by
    simpa [pyStartsWith] using hpre
  simp [do_GET, hph, pyStartsWith, hpre', regexMatchDownload, hauth]

/-- Closed witness for C6 at a concrete download path with no
Authorization header. -/
theorem C6_download_auth_required_witness :
    do_GET trivGExternals { path := "/api/download-report/foo.pdf", auth := none } =
      (sendError 401 "Authorization required", []) :=
  C6_download_auth_required trivGExternals _ (by decide) rfl

/-- C7: a request whose method/path combination is not one of the three
defined routes is answered 404 with error Route not found, for every
method and path. -/
theorem C7_unknown_route_404 (pe : PExternals) (ge : GExternals) (req : Request)
    (h : ¬ definedRoute req.method req.path) :
    handle_request pe ge req = (routeNotFound, []) := by
  rcases req with ⟨m, p, body, auth⟩
  by_cases hm : m = "POST"
  · subst hm
    have hp : ¬ p = submitPath := fun hp => h (Or.inl ⟨rfl, hp⟩)
    simp [handle_request, do_POST, hp]
  · by_cases hg : m = "GET"
    · subst hg
      have hp1 : ¬ p = "/api/health" := fun hh => h (Or.inr ⟨rfl, Or.inl hh⟩)
      have hp2 : ¬ pyStartsWith p downloadRoot = true := fun hh => h (Or.inr ⟨rfl, Or.inr hh⟩)
      simp [handle_request, do_GET, hp1, hp2]
    · simp [handle_request, hm, hg]

/-- Closed witness for C7 at an undefined method/path combination. -/
theorem C7_unknown_route_404_witness :
    handle_request trivPExternals trivGExternals
      { method := "DELETE", path := "/x", body := Except.ok JValue.null, auth := none } =
      (routeNotFound, []) :=
  C7_unknown_route_404 trivPExternals trivGExternals _ (by decide)

/-- C8: the trait scorer is deterministic: two invocations on the same
answers mapping, under any two ambient environments, produce identical
trait scores. -/
theorem C8_scorer_deterministic (env1 env2 : Nat) (a : List (String × JValue)) :
    AssessmentManager.calculate_scores env1 a = AssessmentManager.calculate_scores env2 a :=
  rfl

/-- C9: for a GET whose path starts with the download route literal, the
path-parsing regular expression always matches (so the 400 Invalid file
path branch is unreachable and do_GET never answers 400), and the path
consisting of exactly the route literal (empty filename) passes path
parsing and proceeds to the authorization check, yielding 401 when no
Authorization header is sent. -/
theorem C9_download_match_never_400 (e : GExternals) (r : GetRequest)
    (hpre : pyStartsWith r.path downloadRoot = true) :
    (regexMatchDownload r.path).isSome = true ∧
    (do_GET e r).1.status ≠ 400 ∧
    do_GET e { path := downloadRoot, auth := none } =
      (sendError 401 "Authorization required", []) := by
  have hpre' : isPrefixL downloadRoot.data r.path.data = true := by
    simpa [pyStartsWith] using hpre
  refine ⟨?_, ?_, rfl⟩
  · simp [regexMatchDownload, hpre']
  · by_cases hh : r.path = "/api/health"
    · simp [do_GET, hh, HResponse.status]
    · simp only [do_GET, hh, pyStartsWith, hpre', regexMatchDownload, if_true, if_false,
        ite_true, ite_false, eq_self_iff_true, if_pos, reduceIte]
      split
      · simp [sendError, HResponse.status]
      · split
        · simp [sendError, HResponse.status]
        · split
          · simp [sendError, HResponse.status]
          · simp [HResponse.status]

/-- Closed witness for C9 at a concrete download path. -/
theorem C9_download_match_never_400_witness :
    (regexMatchDownload "/api/download-report/foo.pdf").isSome = true ∧
    (do_GET trivGExternals { path := "/api/download-report/foo.pdf", auth := none }).1.status ≠ 400 ∧
    do_GET trivGExternals { path := downloadRoot, auth := none } =
      (sendError 401 "Authorization required", []) :=
  C9_download_match_never_400 trivGExternals
    { path := "/api/download-report/foo.pdf", auth := none } (by decide)

/-- C10: when the optional studentName field is absent from an otherwise
successful submission, the orchestrator uses the default name Student,
so the success response carries student_name Student and file_name
Student_Career_Report.pdf; when a studentName string is submitted,
student_name is the submitted value with leading and trailing whitespace
stripped, and spaces are replaced by underscores only in file_name. -/
theorem C10_student_name_handling (e : PExternals) (answers : List (String × JValue))
    (g : String) (u : UploadResult)
    (hgoal : e.extract_career_goal (answers.map Prod.snd) = some g)
    (hg : ¬ g = "")
    (hnarr : ∀ c gl n, (e.generate_topic_reports c gl n).truthy = true)
    (hdrive : e.driveOk = true)
    (hup : ∀ c f fo, e.upload_to_drive c f fo = some u) :
    (∀ kvs, sLookup "answers" kvs = some (JValue.obj answers) →
      sLookup "studentName" kvs = none →
      do_POST e { path := submitPath, body := Except.ok (JValue.obj kvs) } =
        (HResponse.json 200 [
          ("message", JValue.str "Report generated successfully"),
          ("report_url", JValue.str u.webViewLink),
          ("file_id", JValue.str u.id),
          ("file_name", JValue.str "Student_Career_Report.pdf"),
          ("student_name", JValue.str "Student"),
          ("career_goal", JValue.str g)],
         allPipelineEffects)) ∧
    (∀ kvs s, sLookup "answers" kvs = some (JValue.obj answers) →
      sLookup "studentName" kvs = some (JValue.str s) →
      do_POST e { path := submitPath, body := Except.ok (JValue.obj kvs) } =
        (HResponse.json 200 [
          ("message", JValue.str "Report generated successfully"),
          ("report_url", JValue.str u.webViewLink),
          ("file_id", JValue.str u.id),
          ("file_name", JValue.str (pyReplaceChar (pyStrip s) ' ' '_' ++ "_Career_Report.pdf")),
          ("student_name", JValue.str (pyStrip s)),
          ("career_goal", JValue.str g)],
         allPipelineEffects)) := by
  constructor
  · intro kvs hans hsn
    have hn : studentNameOf (JValue.obj kvs) = Except.ok "Student" := by
      simp only [studentNameOf, pyGet, hsn]
      rfl
    exact post_success e kvs answers "Student" g u hans hn hgoal hg hnarr hdrive hup
  · intro kvs s hans hsn
    have hn : studentNameOf (JValue.obj kvs) = Except.ok (pyStrip s) := by
      simp only [studentNameOf, pyGet, hsn]
    exact post_success e kvs answers (pyStrip s) g u hans hn hgoal hg hnarr hdrive hup

/-- Closed witness for C10: one successful submission without a
studentName field and one with the name " Asha Rao ". -/
theorem C10_student_name_handling_witness :
    do_POST okPExternals
      { path := submitPath,
        body := Except.ok (JValue.obj [
          ("answers", JValue.obj [("question1", JValue.str "a")])]) } =
      (HResponse.json 200 [
        ("message", JValue.str "Report generated successfully"),
        ("report_url", JValue.str "https://drive.example/view/fid123"),
        ("file_id", JValue.str "fid123"),
        ("file_name", JValue.str "Student_Career_Report.pdf"),
        ("student_name", JValue.str "Student"),
        ("career_goal", JValue.str "Engineer")],
       allPipelineEffects) ∧
    do_POST okPExternals
      { path := submitPath,
        body := Except.ok (JValue.obj [
          ("studentName", JValue.str " Asha Rao "),
          ("answers", JValue.obj [("question1", JValue.str "a")])]) } =
      (HResponse.json 200 [
        ("message", JValue.str "Report generated successfully"),
        ("report_url", JValue.str "https://drive.example/view/fid123"),
        ("file_id", JValue.str "fid123"),
        ("file_name", JValue.str "Asha_Rao_Career_Report.pdf"),
        ("student_name", JValue.str "Asha Rao"),
        ("career_goal", JValue.str "Engineer")],
       allPipelineEffects) := by
  constructor
  · exact (C10_student_name_handling okPExternals _ "Engineer"
      { id := "fid123", webViewLink := "https://drive.example/view/fid123" }
      rfl (by decide) (fun _ _ _ => rfl) rfl (fun _ _ _ => rfl)).1 _ rfl rfl
  · exact (C10_student_name_handling okPExternals _ "Engineer"
      { id := "fid123", webViewLink := "https://drive.example/view/fid123" }
      rfl (by decide) (fun _ _ _ => rfl) rfl (fun _ _ _ => rfl)).2 _ " Asha Rao " rfl rfl
